import Mathlib

/-!
Verification development for the fair-weather scoring engine and its
monitoring durable object.  The definitions below are a shallow embedding
of `src/lib/scoring.ts`, `src/lib/weather.ts` and the `ScheduledRun`
durable object: JavaScript numbers are modelled as rationals (`ℚ`),
millisecond epoch timestamps as integers (`ℤ`), and the string slices an
ISO timestamp is subjected to (`slice(0,10)` for the calendar date,
`slice(0,13)` for the hour key) are carried as precomputed fields of a
`TS` record.
-/

namespace FairWeather

/-- A timestamp as the TypeScript code observes it: `dateKey` abbreviates
`iso.slice(0,10)`, `hourKey` abbreviates the hour prefix `slice(0,13)`
used for exact-hour matching, and `ms` abbreviates
`new Date(iso).getTime()`. -/
structure TS where
  dateKey : String
  hourKey : String
  ms : Int
deriving DecidableEq, Repr

/-- Activity modes (`type Mode` in scoring.ts). -/
inductive Mode where
  | running
  | walking
  | cycling
  | stargazing
  | dog_walking
deriving DecidableEq, Repr

/-- Qualitative ratings attached to a scored hour. -/
inductive Rating where
  | Excellent
  | Good
  | Fair
  | Poor
deriving DecidableEq, Repr

/-- `HourlyData` from scoring.ts (the `time` string is irrelevant to the
score and omitted; `cloud_cover` and `visibility` are the optional
fields). -/
structure HourlyData where
  temperature : ℚ
  humidity : ℚ
  feels_like : ℚ
  weather_code : Int
  wind_speed : ℚ
  uv_index : ℚ
  precipitation_probability : ℚ
  is_daylight : Bool
  daylight_factor : ℚ
  cloud_cover : Option ℚ
  visibility : Option ℚ
deriving DecidableEq, Repr

/-- `function clamp(v, lo = 0, hi = 100)` — every call site uses the
defaults, so the defaults are baked in. -/
def clamp (v : ℚ) : ℚ := max 0 (min 100 v)

/-- The segment-scanning `for` loop of `interpolate`: returns the
linear interpolation on the first segment `[x0, x1]` containing the
value, `none` when no segment matches. -/
def interpSegments (value : ℚ) : List (ℚ × ℚ) → Option ℚ
  | (x0, y0) :: (x1, y1) :: rest =>
      if x0 ≤ value ∧ value ≤ x1 then
        some (y0 + (if x1 ≠ x0 then (value - x0) / (x1 - x0) else 0) * (y1 - y0))
      else interpSegments value ((x1, y1) :: rest)
  | _ => none

/-- `function interpolate(value, bp)` from scoring.ts.  The source
dereferences `bp[0]` and `bp[bp.length-1]`; `headD`/`getLastD` with a
dummy default stand in for those accesses (every call site passes a
nonempty table). -/
def interpolate (value : ℚ) (bp : List (ℚ × ℚ)) : ℚ :=
  if value ≤ (bp.headD (0, 0)).1 then (bp.headD (0, 0)).2
  else if value ≥ (bp.getLastD (0, 0)).1 then (bp.getLastD (0, 0)).2
  else match interpSegments value bp with
    | some y => y
    | none => (bp.getLastD (0, 0)).2

def scoreTempRunning (v : ℚ) : ℚ :=
  clamp (interpolate v [(10, 0), (20, 15), (30, 45), (40, 75), (50, 100), (60, 100), (70, 75), (80, 45), (90, 15), (100, 0)])

def scoreTempWalking (v : ℚ) : ℚ :=
  clamp (interpolate v [(15, 0), (25, 10), (35, 30), (45, 60), (55, 100), (70, 100), (80, 70), (85, 45), (95, 15), (105, 0)])

def scoreHumidity (v : ℚ) : ℚ :=
  clamp (interpolate v [(0, 70), (30, 100), (50, 100), (65, 75), (80, 45), (85, 15), (100, 0)])

def scoreUV (v : ℚ) : ℚ :=
  clamp (interpolate v [(0, 100), (2, 100), (5, 75), (7, 45), (8, 15), (11, 0)])

def scoreWindRunning (v : ℚ) : ℚ :=
  clamp (interpolate v [(0, 100), (8, 100), (15, 75), (25, 45), (35, 15), (50, 0)])

def scoreWindWalking (v : ℚ) : ℚ :=
  clamp (interpolate v [(0, 100), (6, 100), (12, 75), (20, 45), (30, 15), (45, 0)])

def scoreTempCycling (v : ℚ) : ℚ :=
  clamp (interpolate v [(15, 0), (25, 10), (35, 30), (45, 60), (55, 100), (75, 100), (85, 65), (90, 40), (100, 10), (110, 0)])

def scoreWindCycling (v : ℚ) : ℚ :=
  clamp (interpolate v [(0, 100), (5, 100), (8, 80), (12, 55), (15, 35), (18, 20), (22, 8), (30, 0)])

def scorePrecip (v : ℚ) : ℚ :=
  clamp (interpolate v [(0, 100), (5, 100), (15, 80), (30, 55), (50, 30), (70, 12), (100, 0)])

def scorePrecipCycling (v : ℚ) : ℚ :=
  clamp (interpolate v [(0, 100), (5, 100), (20, 70), (40, 35), (60, 15), (80, 5), (100, 0)])

def scoreTempStargazing (v : ℚ) : ℚ :=
  clamp (interpolate v [(0, 0), (15, 10), (25, 30), (35, 60), (45, 90), (55, 100), (65, 100), (75, 85), (85, 50), (95, 20), (105, 0)])

def scoreWindStargazing (v : ℚ) : ℚ :=
  clamp (interpolate v [(0, 100), (5, 100), (10, 85), (15, 60), (20, 35), (25, 15), (35, 0)])

def scoreHumidityStargazing (v : ℚ) : ℚ :=
  clamp (interpolate v [(0, 100), (30, 100), (50, 90), (60, 70), (70, 50), (80, 25), (90, 10), (100, 0)])

def scoreCloudCover (v : ℚ) : ℚ :=
  clamp (interpolate v [(0, 100), (10, 95), (20, 80), (30, 60), (50, 35), (70, 15), (85, 5), (100, 0)])

def scoreVisib (v : ℚ) : ℚ :=
  clamp (interpolate v [(1000, 0), (5000, 30), (10000, 60), (20000, 85), (40000, 100), (100000, 100)])

def WEATHER_CODE_SCORES : List (Int × ℚ) :=
  [(0, 100), (1, 95), (2, 90), (3, 75), (45, 55), (48, 50), (51, 35), (53, 25), (55, 15), (56, 2), (57, 0),
   (61, 15), (63, 8), (65, 2), (66, 0), (67, 0), (71, 15), (73, 5), (75, 2), (77, 8),
   (80, 15), (81, 8), (82, 2), (85, 8), (86, 2), (95, 5), (96, 0), (99, 0)]

def WEATHER_CODE_SCORES_CYCLING : List (Int × ℚ) :=
  [(0, 100), (1, 95), (2, 90), (3, 75), (45, 15), (48, 10), (51, 35), (53, 25), (55, 15), (56, 2), (57, 0),
   (61, 15), (63, 8), (65, 3), (66, 0), (67, 0), (71, 20), (73, 8), (75, 0), (77, 10),
   (80, 15), (81, 8), (82, 3), (85, 10), (86, 2), (95, 3), (96, 0), (99, 0)]

def WEATHER_CODE_SCORES_STARGAZING : List (Int × ℚ) :=
  [(0, 100), (1, 90), (2, 60), (3, 20), (45, 5), (48, 5),
   (51, 5), (53, 2), (55, 0), (56, 0), (57, 0),
   (61, 2), (63, 0), (65, 0), (66, 0), (67, 0),
   (71, 5), (73, 2), (75, 0), (77, 2),
   (80, 5), (81, 2), (82, 0), (85, 2), (86, 0),
   (95, 0), (96, 0), (99, 0)]

def WEATHER_CODE_SCORES_DOG_WALKING : List (Int × ℚ) :=
  [(0, 100), (1, 95), (2, 90), (3, 75), (45, 55), (48, 50),
   (51, 35), (53, 25), (55, 15), (56, 0), (57, 0),
   (61, 15), (63, 8), (65, 2), (66, 0), (67, 0),
   (71, 5), (73, 0), (75, 0), (77, 2),
   (80, 15), (81, 8), (82, 2), (85, 2), (86, 0),
   (95, 5), (96, 0), (99, 0)]

def scoreTempDogWalking (v : ℚ) : ℚ :=
  clamp (interpolate v [(10, 5), (20, 20), (30, 45), (40, 70), (50, 100), (65, 100), (75, 70), (82, 40), (90, 10), (100, 0)])

def scoreUVDogWalking (v : ℚ) : ℚ :=
  clamp (interpolate v [(0, 100), (2, 100), (4, 75), (6, 40), (8, 10), (10, 0)])

def scorePavement (v : ℚ) : ℚ :=
  clamp (interpolate v [(30, 60), (40, 80), (50, 100), (77, 100), (100, 65), (115, 35), (125, 10), (135, 0)])

/-- `estimatePavementTemp(airTempF, uvIndex, cloudCover)`; `maxBoost = 50`. -/
def estimatePavementTemp (airTempF : ℚ) (uvIndex : ℚ) (cloudCover : Option ℚ) : ℚ :=
  airTempF + (uvIndex / 11) * (1 - (cloudCover.getD 50) / 100) * 50

/-- `WEATHER_CODE_SCORES[c] ?? 50` — associative lookup with a default
of 50 for unmapped codes. -/
def codeLookup (table : List (Int × ℚ)) (c : Int) : ℚ :=
  match table with
  | [] => 50
  | p :: rest => if c = p.1 then p.2 else codeLookup rest c

def scoreWeatherCode (c : Int) : ℚ := codeLookup WEATHER_CODE_SCORES c
def scoreWeatherCodeCycling (c : Int) : ℚ := codeLookup WEATHER_CODE_SCORES_CYCLING c
def scoreWeatherCodeStargazing (c : Int) : ℚ := codeLookup WEATHER_CODE_SCORES_STARGAZING c
def scoreWeatherCodeDogWalking (c : Int) : ℚ := codeLookup WEATHER_CODE_SCORES_DOG_WALKING c

/-- `Math.round` on a JS number: round to nearest, half away from zero
agrees with half toward `+∞` on the nonnegative values that reach it
here; `⌊q + 1/2⌋` is exactly JS rounding for all rationals. -/
def jsRound (q : ℚ) : Int := ⌊q + 1/2⌋

/-- `Math.round(composite * 10) / 10` — one decimal of precision. -/
def roundTenth (q : ℚ) : ℚ := ((jsRound (q * 10) : ℚ)) / 10

/-- The weighted sum `Σ sub[k] * WEIGHTS[k]` computed by `computeScore`
for each mode, written out in the key order of the weight tables.
Weights: default `WEIGHTS` (0.25/0.20/0.15/0.10/0.10/0.10/0.10),
`WEIGHTS_DOG_WALKING`, `WEIGHTS_STARGAZING` from scoring.ts.  The
source selects the default-branch curve set by ternaries on the mode
(`mode === 'cycling' ? ... : mode === 'running' ? ... : ...`); they are
specialized into the three per-mode arms here. -/
def weightedSum (h : HourlyData) : Mode → ℚ
  | Mode.stargazing =>
      scoreCloudCover (h.cloud_cover.getD 50) * (35/100)
      + scoreWeatherCodeStargazing h.weather_code * (15/100)
      + scoreTempStargazing h.temperature * (15/100)
      + scoreWindStargazing h.wind_speed * (10/100)
      + scoreHumidityStargazing h.humidity * (10/100)
      + scorePrecip h.precipitation_probability * (10/100)
      + scoreVisib (h.visibility.getD 20000) * (5/100)
  | Mode.dog_walking =>
      scoreTempDogWalking h.temperature * (15/100)
      + scoreTempDogWalking h.feels_like * (10/100)
      + scorePavement (estimatePavementTemp h.temperature h.uv_index h.cloud_cover) * (20/100)
      + scoreHumidity h.humidity * (10/100)
      + scoreUVDogWalking h.uv_index * (15/100)
      + scoreWindWalking h.wind_speed * (5/100)
      + scorePrecip h.precipitation_probability * (10/100)
      + scoreWeatherCodeDogWalking h.weather_code * (15/100)
  | Mode.cycling =>
      scoreTempCycling h.temperature * (25/100)
      + scoreTempCycling h.feels_like * (20/100)
      + scoreHumidity h.humidity * (15/100)
      + scoreUV h.uv_index * (10/100)
      + scoreWindCycling h.wind_speed * (10/100)
      + scorePrecipCycling h.precipitation_probability * (10/100)
      + scoreWeatherCodeCycling h.weather_code * (10/100)
  | Mode.running =>
      scoreTempRunning h.temperature * (25/100)
      + scoreTempRunning h.feels_like * (20/100)
      + scoreHumidity h.humidity * (15/100)
      + scoreUV h.uv_index * (10/100)
      + scoreWindRunning h.wind_speed * (10/100)
      + scorePrecip h.precipitation_probability * (10/100)
      + scoreWeatherCode h.weather_code * (10/100)
  | Mode.walking =>
      scoreTempWalking h.temperature * (25/100)
      + scoreTempWalking h.feels_like * (20/100)
      + scoreHumidity h.humidity * (15/100)
      + scoreUV h.uv_index * (10/100)
      + scoreWindWalking h.wind_speed * (10/100)
      + scorePrecip h.precipitation_probability * (10/100)
      + scoreWeatherCode h.weather_code * (10/100)

/-- The sub-scores `sub[k]` computed inside `computeScore` for the given
mode, as a list (same calls, same order as the weight-table keys). -/
def subScores (h : HourlyData) : Mode → List ℚ
  | Mode.stargazing =>
      [scoreCloudCover (h.cloud_cover.getD 50),
       scoreWeatherCodeStargazing h.weather_code,
       scoreTempStargazing h.temperature,
       scoreWindStargazing h.wind_speed,
       scoreHumidityStargazing h.humidity,
       scorePrecip h.precipitation_probability,
       scoreVisib (h.visibility.getD 20000)]
  | Mode.dog_walking =>
      [scoreTempDogWalking h.temperature,
       scoreTempDogWalking h.feels_like,
       scorePavement (estimatePavementTemp h.temperature h.uv_index h.cloud_cover),
       scoreHumidity h.humidity,
       scoreUVDogWalking h.uv_index,
       scoreWindWalking h.wind_speed,
       scorePrecip h.precipitation_probability,
       scoreWeatherCodeDogWalking h.weather_code]
  | Mode.cycling =>
      [scoreTempCycling h.temperature,
       scoreTempCycling h.feels_like,
       scoreHumidity h.humidity,
       scoreUV h.uv_index,
       scoreWindCycling h.wind_speed,
       scorePrecipCycling h.precipitation_probability,
       scoreWeatherCodeCycling h.weather_code]
  | Mode.running =>
      [scoreTempRunning h.temperature,
       scoreTempRunning h.feels_like,
       scoreHumidity h.humidity,
       scoreUV h.uv_index,
       scoreWindRunning h.wind_speed,
       scorePrecip h.precipitation_probability,
       scoreWeatherCode h.weather_code]
  | Mode.walking =>
      [scoreTempWalking h.temperature,
       scoreTempWalking h.feels_like,
       scoreHumidity h.humidity,
       scoreUV h.uv_index,
       scoreWindWalking h.wind_speed,
       scorePrecip h.precipitation_probability,
       scoreWeatherCode h.weather_code]

/-- Rating thresholds: `>= 80 Excellent, >= 65 Good, >= 45 Fair, else Poor`. -/
def ratingOf (composite : ℚ) : Rating :=
  if composite ≥ 80 then Rating.Excellent
  else if composite ≥ 65 then Rating.Good
  else if composite ≥ 45 then Rating.Fair
  else Rating.Poor

structure ScoredHour where
  score : ℚ
  rating : Rating
deriving DecidableEq, Repr

/-- `computeScore(h, mode)`: weighted sum, times the daylight factor,
rounded to one decimal; rating from the thresholds. -/
def computeScore (h : HourlyData) (mode : Mode) : ScoredHour :=
  let composite := roundTenth (weightedSum h mode * h.daylight_factor)
  { score := composite, rating := ratingOf composite }

/-- The result record `\x7b is_daylight, daylight_factor \x7d` of the two
daylight models. -/
structure DLight where
  is_daylight : Bool
  daylight_factor : ℚ
deriving DecidableEq, Repr

/-- One entry of the `dailyList` array: calendar-date key plus the epoch
milliseconds of `new Date(day.sunrise)` / `new Date(day.sunset)`. -/
structure DayRec where
  date : String
  sunriseMs : Int
  sunsetMs : Int
deriving DecidableEq, Repr

/-- Milliseconds in the 30-minute twilight band (`30 * 60 * 1000`). -/
def twilightMs : Int := 30 * 60 * 1000

/-- `computeDaylight(hourISO, dailyList)` from scoring.ts. -/
def computeDaylight (hour : TS) (dailyList : List DayRec) : DLight :=
  match dailyList.find? (fun d => d.date = hour.dateKey) with
  | none => { is_daylight := true, daylight_factor := 1 }
  | some day =>
    let sr := day.sunriseMs
    let ss := day.sunsetMs
    let ht := hour.ms
    if ht ≥ sr ∧ ht ≤ ss then
      if ht - sr < twilightMs ∨ ss - ht < twilightMs then
        { is_daylight := true, daylight_factor := 6/10 }
      else { is_daylight := true, daylight_factor := 1 }
    else if ht < sr ∧ sr - ht ≤ twilightMs then
      { is_daylight := false, daylight_factor := 6/10 }
    else if ht > ss ∧ ht - ss ≤ twilightMs then
      { is_daylight := false, daylight_factor := 6/10 }
    else { is_daylight := false, daylight_factor := 3/10 }

/-- `computeDarkness(hourISO, dailyList)` from scoring.ts (stargazing
variant). -/
def computeDarkness (hour : TS) (dailyList : List DayRec) : DLight :=
  match dailyList.find? (fun d => d.date = hour.dateKey) with
  | none => { is_daylight := false, daylight_factor := 5/100 }
  | some day =>
    let sr := day.sunriseMs
    let ss := day.sunsetMs
    let ht := hour.ms
    if ht > ss + twilightMs ∨ ht < sr - twilightMs then
      { is_daylight := false, daylight_factor := 1 }
    else if (ht ≥ ss ∧ ht ≤ ss + twilightMs) ∨ (ht ≥ sr - twilightMs ∧ ht ≤ sr) then
      { is_daylight := false, daylight_factor := 3/10 }
    else if (ht ≥ sr ∧ ht ≤ sr + twilightMs) ∨ (ht ≥ ss - twilightMs ∧ ht ≤ ss) then
      { is_daylight := true, daylight_factor := 3/10 }
    else { is_daylight := true, daylight_factor := 5/100 }

/-- The `hourly` block of an `OpenMeteoForecast`: parallel arrays aligned
by index. -/
structure Hourly where
  time : List TS
  temperature_2m : List ℚ
  relative_humidity_2m : List ℚ
  apparent_temperature : List ℚ
  weather_code : List Int
  wind_speed_10m : List ℚ
  uv_index : List ℚ
  precipitation_probability : List ℚ
  cloud_cover : List ℚ
  visibility : List ℚ
deriving DecidableEq, Repr

/-- The `daily` block: per-day sunrise/sunset arrays keyed by `time`. -/
structure Daily where
  time : List String
  sunrise : List Int
  sunset : List Int
deriving DecidableEq, Repr

structure OpenMeteoForecast where
  hourly : Hourly
  daily : Daily
deriving DecidableEq, Repr

/-- `forecast.daily.time.map((d, i) => (\x7b date: d, sunrise: ..., sunset: ... \x7d))`. -/
def mkDailyList (d : Daily) : List DayRec :=
  d.time.enum.map (fun p =>
    { date := p.2, sunriseMs := (d.sunrise.get? p.1).getD 0, sunsetMs := (d.sunset.get? p.1).getD 0 })

/-- Placeholder timestamp used only to express `xs[i]` as `getD`; the
indices at which it is used are always in bounds in the source. -/
def tsDefault : TS := { dateKey := "", hourKey := "", ms := 0 }

/-- Building the `HourlyData` record at index `idx` (with the
`?? 50` / `?? 20000` defaults for `cloud_cover` and `visibility`), and
the day/darkness classification `dl` spread over it. -/
def mkHourData (h : Hourly) (idx : Nat) (dl : DLight) : HourlyData :=
  { temperature := (h.temperature_2m.get? idx).getD 0
    humidity := (h.relative_humidity_2m.get? idx).getD 0
    feels_like := (h.apparent_temperature.get? idx).getD 0
    weather_code := (h.weather_code.get? idx).getD 0
    wind_speed := (h.wind_speed_10m.get? idx).getD 0
    uv_index := (h.uv_index.get? idx).getD 0
    precipitation_probability := (h.precipitation_probability.get? idx).getD 0
    is_daylight := dl.is_daylight
    daylight_factor := dl.daylight_factor
    cloud_cover := some ((h.cloud_cover.get? idx).getD 50)
    visibility := some ((h.visibility.get? idx).getD 20000) }

/-- First loop of `computeScoreForHour`: first index whose hour prefix
matches the target's hour key. -/
def exactIdx (times : List TS) (hourKey : String) : Option Nat :=
  times.findIdx? (fun t => t.hourKey = hourKey)

/-- Fallback loop: index minimizing `Math.abs(time[i].ms - target.ms)`,
keeping the earliest index on ties (`diff < minDiff` is strict). -/
def closestIdx (times : List TS) (targetMs : Int) : Option Nat :=
  (times.enum.foldl (fun acc p =>
    let diff := (p.2.ms - targetMs).natAbs
    match acc with
    | none => some (p.1, diff)
    | some q => if diff < q.2 then some (p.1, diff) else some q) none).map Prod.fst

/-- `computeScoreForHour(forecast, targetTime, mode)` from scoring.ts:
exact hour match, else closest hour, else the neutral score 50. -/
def computeScoreForHour (f : OpenMeteoForecast) (target : TS) (mode : Mode) : ℚ :=
  let dailyList := mkDailyList f.daily
  let idx? := match exactIdx f.hourly.time target.hourKey with
              | some i => some i
              | none => closestIdx f.hourly.time target.ms
  match idx? with
  | none => 50
  | some idx =>
    let t := (f.hourly.time.get? idx).getD tsDefault
    let dl := if mode = Mode.stargazing then computeDarkness t dailyList
              else computeDaylight t dailyList
    (computeScore (mkHourData f.hourly idx dl) mode).score

/-- Search half-width: `4 * 60 * 60 * 1000` ms. -/
def windowMs : Nat := 4 * 60 * 60 * 1000

/-- The body of the `findBestAlternative` loop at index `i`: `none` when
any of the `continue` guards fires (wrong calendar day, not in the
future, outside the ±4 h window, the target slot itself, or a daylight
classification incompatible with the mode), otherwise the slot's
timestamp and its score. -/
def eligibleScore (f : OpenMeteoForecast) (target : TS) (now : Int) (mode : Mode)
    (i : Nat) : Option (TS × ℚ) :=
  match f.hourly.time.get? i with
  | none => none
  | some t =>
    if t.dateKey ≠ target.dateKey then none
    else if t.ms ≤ now then none
    else if (t.ms - target.ms).natAbs > windowMs then none
    else if t.ms = target.ms then none
    else
      let dl := if mode = Mode.stargazing then computeDarkness t (mkDailyList f.daily)
                else computeDaylight t (mkDailyList f.daily)
      if mode ≠ Mode.stargazing ∧ dl.is_daylight = false then none
      else if mode = Mode.stargazing ∧ dl.is_daylight = true then none
      else some (t, (computeScore (mkHourData f.hourly i dl) mode).score)

/-- `if (!best || scored.score > best.score) best = ...` — the
accumulator update of the search loop. -/
def bestStep (e : Nat → Option (TS × ℚ)) (best : Option (TS × ℚ)) (i : Nat) :
    Option (TS × ℚ) :=
  match e i with
  | none => best
  | some s =>
    match best with
    | none => some s
    | some b => if s.2 > b.2 then some s else some b

/-- `findBestAlternative(forecast, targetTime, mode)` from scoring.ts;
`Date.now()` is passed in as `now`. -/
def findBestAlternative (f : OpenMeteoForecast) (target : TS) (now : Int)
    (mode : Mode) : Option (TS × ℚ) :=
  (List.range f.hourly.time.length).foldl (bestStep (eligibleScore f target now mode)) none

/-- The persisted `event` row of the `ScheduledRun` durable object
(`EventRow` in scheduled-run.ts).  `scheduled_time` is the parsed
scheduled-time string; `alert_sent` is the SQL 0/1 integer. -/
structure EventRow where
  id : String
  email : String
  mode : Mode
  scheduled_time : TS
  duration_minutes : Int
  lat : ℚ
  lon : ℚ
  tz : String
  location_name : String
  initial_score : ℚ
  alert_sent : Nat
  resend_api_key : String
deriving DecidableEq, Repr

/-- The `/initialize` request body. -/
structure InitBody where
  id : String
  email : String
  mode : Mode
  scheduledTime : TS
  durationMinutes : Int
  lat : ℚ
  lon : ℚ
  tz : String
  locationName : String
  initialScore : ℚ
  resendApiKey : String
deriving DecidableEq, Repr

/-- The row the `INSERT OR REPLACE` writes: all fields from the request
body, `alert_sent` literally 0. -/
def rowOfBody (b : InitBody) : EventRow :=
  { id := b.id
    email := b.email
    mode := b.mode
    scheduled_time := b.scheduledTime
    duration_minutes := b.durationMinutes
    lat := b.lat
    lon := b.lon
    tz := b.tz
    location_name := b.locationName
    initial_score := b.initialScore
    alert_sent := 0
    resend_api_key := b.resendApiKey }

/-- `ScheduledRun.handleInitialize` (the name is kept in this comment;
the definition is shortened to `handleInit`): replaces the single `event`
row with the body's data and alert flag 0, and returns the first alarm
time `min(now + 1h, max(scheduledTime - 2h, now + 1min))`. -/
def handleInit (_st : Option EventRow) (b : InitBody) (now : Int) :
    Option EventRow × Int :=
  let eventTime := b.scheduledTime.ms
  let oneHourFromNow := now + 60 * 60 * 1000
  let twoHoursBefore := eventTime - 2 * 60 * 60 * 1000
  (some (rowOfBody b), min oneHourFromNow (max twoHoursBefore (now + 60 * 1000)))

/-- The payload handed to `sendDeteriorationEmail`. -/
structure DeteriorationNotice where
  email : String
  mode : Mode
  scheduledTime : TS
  durationMinutes : Int
  locationName : String
  initialScore : ℚ
  currentScore : ℚ
  alternative : Option (TS × ℚ)
deriving DecidableEq, Repr

/-- Environment of one timer wake: the wall-clock time, the outcome of
`fetchForecast` (`none` models a thrown transport error) and whether
`sendDeteriorationEmail` would succeed (`false` models a thrown Resend
error). -/
structure Wake where
  now : Int
  fetchResult : Option OpenMeteoForecast
  sendOk : Bool

/-- Observable outcome of one `alarm()` run: the persisted state
afterwards, the notifications dispatched (length 0 or 1), and the alarm
armed for the next wake, if any. -/
structure AlarmResult where
  state : Option EventRow
  sent : List DeteriorationNotice
  nextAlarm : Option Int
deriving Repr

/-- The rearm step below the `try`:
`const nextAlarm = now + 30 * 60 * 1000; if (nextAlarm < eventTime) setAlarm(nextAlarm)`. -/
def rearm (now : Int) (eventTime : Int) : Option Int :=
  if now + 30 * 60 * 1000 < eventTime then some (now + 30 * 60 * 1000) else none

/-- `ScheduledRun.alarm()` from scheduled-run.ts.  A failed fetch or a
failed email send raises inside the `try`; the `catch` swallows it, so
in the failure cases the row is unchanged and nothing counts as
dispatched, and the rearm logic below the `try` still runs (the source
computes `rearm` once after the `try`; it is replicated into each
non-terminal branch here). -/
def alarm (st : Option EventRow) (w : Wake) : AlarmResult :=
  match st with
  | none => { state := none, sent := [], nextAlarm := none }
  | some ev =>
    if w.now > ev.scheduled_time.ms then
      -- event has passed: delete everything, no further timer
      { state := none, sent := [], nextAlarm := none }
    else
      match w.fetchResult with
      | none =>
        { state := some ev, sent := [], nextAlarm := rearm w.now ev.scheduled_time.ms }
      | some forecast =>
        -- currentScore = computeScoreForHour(forecast, scheduled_time, mode), inlined
        if ev.initial_score - computeScoreForHour forecast ev.scheduled_time ev.mode ≥ 15 ∧
            ev.alert_sent = 0 ∧ ev.resend_api_key ≠ "" then
          if w.sendOk then
            { state := some { ev with alert_sent := 1 }
              sent := [{ email := ev.email
                         mode := ev.mode
                         scheduledTime := ev.scheduled_time
                         durationMinutes := ev.duration_minutes
                         locationName := ev.location_name
                         initialScore := ev.initial_score
                         currentScore := computeScoreForHour forecast ev.scheduled_time ev.mode
                         alternative := findBestAlternative forecast ev.scheduled_time w.now ev.mode }]
              nextAlarm := rearm w.now ev.scheduled_time.ms }
          else
            { state := some ev, sent := [], nextAlarm := rearm w.now ev.scheduled_time.ms }
        else
          { state := some ev, sent := [], nextAlarm := rearm w.now ev.scheduled_time.ms }

/-- A sequence of timer wakes run through `alarm`, returning the final
state and the total number of notifications dispatched. -/
def runWakes : Option EventRow → List Wake → Option EventRow × Nat
  | st, [] => (st, 0)
  | st, w :: ws =>
    let r := alarm st w
    let rest := runWakes r.state ws
    (rest.1, r.sent.length + rest.2)

/-! ### Concrete instances used as witnesses and counterexamples

Timestamps are milliseconds from the local midnight of 2025-06-15;
sunrise 06:00 = 21 600 000 ms, sunset 20:30 = 73 800 000 ms (the
sunrise/sunset pair the repository's test suite uses). -/

def exDay : DayRec := { date := "2025-06-15", sunriseMs := 21600000, sunsetMs := 73800000 }

def exDailyList : List DayRec := [exDay]

def exDailyBlock : Daily :=
  { time := ["2025-06-15"], sunrise := [21600000], sunset := [73800000] }

/-- The exact sunrise instant. -/
def exSunriseTS : TS :=
  { dateKey := "2025-06-15", hourKey := "2025-06-15T06", ms := 21600000 }

/-- Exactly 1800 seconds after sunrise (06:30). -/
def exSunrisePlusTS : TS :=
  { dateKey := "2025-06-15", hourKey := "2025-06-15T06", ms := 23400000 }

/-- Noon. -/
def exNoonTS : TS :=
  { dateKey := "2025-06-15", hourKey := "2025-06-15T12", ms := 43200000 }

/-- 13:00. -/
def exOneTS : TS :=
  { dateKey := "2025-06-15", hourKey := "2025-06-15T13", ms := 46800000 }

/-- Two-hour forecast: a perfect noon slot and a 13:00 slot with an 80%
precipitation probability and heavy-rain weather code 65. -/
def exForecast : OpenMeteoForecast :=
  { hourly :=
      { time := [exNoonTS, exOneTS]
        temperature_2m := [55, 55]
        relative_humidity_2m := [40, 40]
        apparent_temperature := [55, 55]
        weather_code := [0, 65]
        wind_speed_10m := [5, 5]
        uv_index := [3, 3]
        precipitation_probability := [0, 80]
        cloud_cover := [10, 10]
        visibility := [40000, 40000] }
    daily := exDailyBlock }

/-- Wall clock at 10:00, before both forecast slots. -/
def exNow : Int := 36000000

/-- A forecast whose hourly series is empty. -/
def emptyForecast : OpenMeteoForecast :=
  { hourly :=
      { time := []
        temperature_2m := []
        relative_humidity_2m := []
        apparent_temperature := []
        weather_code := []
        wind_speed_10m := []
        uv_index := []
        precipitation_probability := []
        cloud_cover := []
        visibility := [] }
    daily := { time := [], sunrise := [], sunset := [] } }

/-- The perfect running hour of the test suite. -/
def exHour : HourlyData :=
  { temperature := 55
    humidity := 40
    feels_like := 55
    weather_code := 0
    wind_speed := 5
    uv_index := 3
    precipitation_probability := 0
    is_daylight := true
    daylight_factor := 1
    cloud_cover := some 10
    visibility := some 40000 }

/-- Event scheduled only 10 minutes in the future (at `ms = 600000`,
with wall clock at 0). -/
def exEventNear : EventRow :=
  { id := "e1"
    email := "user@example.com"
    mode := Mode.running
    scheduled_time := { dateKey := "2025-06-15", hourKey := "2025-06-15T00", ms := 600000 }
    duration_minutes := 60
    lat := 0
    lon := 0
    tz := "UTC"
    location_name := "Park"
    initial_score := 80
    alert_sent := 0
    resend_api_key := "key" }

/-- Event scheduled far in the future (`ms = 100000000`). -/
def exEventFar : EventRow :=
  { exEventNear with
      id := "e2"
      scheduled_time := { dateKey := "2025-06-16", hourKey := "2025-06-16T03", ms := 100000000 } }

/-- Far-future event whose alert flag is already set. -/
def exEventFlagged : EventRow := { exEventFar with alert_sent := 1 }

/-- A wake whose forecast fetch failed. -/
def exWakeFail : Wake := { now := 0, fetchResult := none, sendOk := true }

/-- A wake at time 0 that fetches `exForecast` successfully. -/
def exWakeFetch : Wake := { now := 0, fetchResult := some exForecast, sendOk := true }

/-! ### Helper lemmas -/

lemma clamp_nonneg (v : ℚ) : 0 ≤ clamp v := le_max_left 0 _

lemma clamp_le (v : ℚ) : clamp v ≤ 100 := by
  unfold clamp
  rcases le_total 100 v with h | h
  · simp [min_eq_left h]
  · simp [min_eq_right h]
    exact h

lemma codeLookup_nonneg (table : List (Int × ℚ))
    (hb : ∀ p ∈ table, 0 ≤ p.2) (c : Int) : 0 ≤ codeLookup table c := by
  induction table with
  | nil => norm_num [codeLookup]
  | cons p rest ih =>
    unfold codeLookup
    split
    · exact hb p (List.mem_cons_self p rest)
    · exact ih (fun q hq => hb q (List.mem_cons_of_mem p hq))

lemma codeLookup_le (table : List (Int × ℚ))
    (hb : ∀ p ∈ table, p.2 ≤ 100) (c : Int) : codeLookup table c ≤ 100 := by
  induction table with
  | nil => norm_num [codeLookup]
  | cons p rest ih =>
    unfold codeLookup
    split
    · exact hb p (List.mem_cons_self p rest)
    · exact ih (fun q hq => hb q (List.mem_cons_of_mem p hq))

lemma scoreWeatherCode_bounds (c : Int) :
    0 ≤ scoreWeatherCode c ∧ scoreWeatherCode c ≤ 100 :=
  ⟨codeLookup_nonneg _ (by decide) c, codeLookup_le _ (by decide) c⟩

lemma scoreWeatherCodeCycling_bounds (c : Int) :
    0 ≤ scoreWeatherCodeCycling c ∧ scoreWeatherCodeCycling c ≤ 100 :=
  ⟨codeLookup_nonneg _ (by decide) c, codeLookup_le _ (by decide) c⟩

lemma scoreWeatherCodeStargazing_bounds (c : Int) :
    0 ≤ scoreWeatherCodeStargazing c ∧ scoreWeatherCodeStargazing c ≤ 100 :=
  ⟨codeLookup_nonneg _ (by decide) c, codeLookup_le _ (by decide) c⟩

lemma scoreWeatherCodeDogWalking_bounds (c : Int) :
    0 ≤ scoreWeatherCodeDogWalking c ∧ scoreWeatherCodeDogWalking c ≤ 100 :=
  ⟨codeLookup_nonneg _ (by decide) c, codeLookup_le _ (by decide) c⟩

lemma scoreTempRunning_bounds (v : ℚ) : 0 ≤ scoreTempRunning v ∧ scoreTempRunning v ≤ 100 :=
  ⟨clamp_nonneg _, clamp_le _⟩

lemma scoreTempWalking_bounds (v : ℚ) : 0 ≤ scoreTempWalking v ∧ scoreTempWalking v ≤ 100 :=
  ⟨clamp_nonneg _, clamp_le _⟩

lemma scoreHumidity_bounds (v : ℚ) : 0 ≤ scoreHumidity v ∧ scoreHumidity v ≤ 100 :=
  ⟨clamp_nonneg _, clamp_le _⟩

lemma scoreUV_bounds (v : ℚ) : 0 ≤ scoreUV v ∧ scoreUV v ≤ 100 :=
  ⟨clamp_nonneg _, clamp_le _⟩

lemma scoreWindRunning_bounds (v : ℚ) : 0 ≤ scoreWindRunning v ∧ scoreWindRunning v ≤ 100 :=
  ⟨clamp_nonneg _, clamp_le _⟩

lemma scoreWindWalking_bounds (v : ℚ) : 0 ≤ scoreWindWalking v ∧ scoreWindWalking v ≤ 100 :=
  ⟨clamp_nonneg _, clamp_le _⟩

lemma scoreTempCycling_bounds (v : ℚ) : 0 ≤ scoreTempCycling v ∧ scoreTempCycling v ≤ 100 :=
  ⟨clamp_nonneg _, clamp_le _⟩

lemma scoreWindCycling_bounds (v : ℚ) : 0 ≤ scoreWindCycling v ∧ scoreWindCycling v ≤ 100 :=
  ⟨clamp_nonneg _, clamp_le _⟩

lemma scorePrecip_bounds (v : ℚ) : 0 ≤ scorePrecip v ∧ scorePrecip v ≤ 100 :=
  ⟨clamp_nonneg _, clamp_le _⟩

lemma scorePrecipCycling_bounds (v : ℚ) : 0 ≤ scorePrecipCycling v ∧ scorePrecipCycling v ≤ 100 :=
  ⟨clamp_nonneg _, clamp_le _⟩

lemma scoreTempStargazing_bounds (v : ℚ) : 0 ≤ scoreTempStargazing v ∧ scoreTempStargazing v ≤ 100 :=
  ⟨clamp_nonneg _, clamp_le _⟩

lemma scoreWindStargazing_bounds (v : ℚ) : 0 ≤ scoreWindStargazing v ∧ scoreWindStargazing v ≤ 100 :=
  ⟨clamp_nonneg _, clamp_le _⟩

lemma scoreHumidityStargazing_bounds (v : ℚ) :
    0 ≤ scoreHumidityStargazing v ∧ scoreHumidityStargazing v ≤ 100 :=
  ⟨clamp_nonneg _, clamp_le _⟩

lemma scoreCloudCover_bounds (v : ℚ) : 0 ≤ scoreCloudCover v ∧ scoreCloudCover v ≤ 100 :=
  ⟨clamp_nonneg _, clamp_le _⟩

lemma scoreVisib_bounds (v : ℚ) : 0 ≤ scoreVisib v ∧ scoreVisib v ≤ 100 :=
  ⟨clamp_nonneg _, clamp_le _⟩

lemma scoreTempDogWalking_bounds (v : ℚ) :
    0 ≤ scoreTempDogWalking v ∧ scoreTempDogWalking v ≤ 100 :=
  ⟨clamp_nonneg _, clamp_le _⟩

lemma scoreUVDogWalking_bounds (v : ℚ) : 0 ≤ scoreUVDogWalking v ∧ scoreUVDogWalking v ≤ 100 :=
  ⟨clamp_nonneg _, clamp_le _⟩

lemma scorePavement_bounds (v : ℚ) : 0 ≤ scorePavement v ∧ scorePavement v ≤ 100 :=
  ⟨clamp_nonneg _, clamp_le _⟩

/-- Every sub-score computed inside `computeScore` is a `clamp` or a
weather-code lookup, hence lands in `[0, 100]`. -/
lemma subScores_bounds (h : HourlyData) (m : Mode) :
    ∀ s ∈ subScores h m, 0 ≤ s ∧ s ≤ 100 := by
  intro s hs
  cases m with
  | stargazing =>
    simp only [subScores, List.mem_cons, List.not_mem_nil, or_false] at hs
    rcases hs with hs | hs | hs | hs | hs | hs | hs <;> subst hs
    exacts [scoreCloudCover_bounds _, scoreWeatherCodeStargazing_bounds _,
      scoreTempStargazing_bounds _, scoreWindStargazing_bounds _,
      scoreHumidityStargazing_bounds _, scorePrecip_bounds _, scoreVisib_bounds _]
  | dog_walking =>
    simp only [subScores, List.mem_cons, List.not_mem_nil, or_false] at hs
    rcases hs with hs | hs | hs | hs | hs | hs | hs | hs <;> subst hs
    exacts [scoreTempDogWalking_bounds _, scoreTempDogWalking_bounds _,
      scorePavement_bounds _, scoreHumidity_bounds _, scoreUVDogWalking_bounds _,
      scoreWindWalking_bounds _, scorePrecip_bounds _, scoreWeatherCodeDogWalking_bounds _]
  | running =>
    simp only [subScores, List.mem_cons, List.not_mem_nil, or_false] at hs
    rcases hs with hs | hs | hs | hs | hs | hs | hs <;> subst hs
    exacts [scoreTempRunning_bounds _, scoreTempRunning_bounds _, scoreHumidity_bounds _,
      scoreUV_bounds _, scoreWindRunning_bounds _, scorePrecip_bounds _,
      scoreWeatherCode_bounds _]
  | walking =>
    simp only [subScores, List.mem_cons, List.not_mem_nil, or_false] at hs
    rcases hs with hs | hs | hs | hs | hs | hs | hs <;> subst hs
    exacts [scoreTempWalking_bounds _, scoreTempWalking_bounds _, scoreHumidity_bounds _,
      scoreUV_bounds _, scoreWindWalking_bounds _, scorePrecip_bounds _,
      scoreWeatherCode_bounds _]
  | cycling =>
    simp only [subScores, List.mem_cons, List.not_mem_nil, or_false] at hs
    rcases hs with hs | hs | hs | hs | hs | hs | hs <;> subst hs
    exacts [scoreTempCycling_bounds _, scoreTempCycling_bounds _, scoreHumidity_bounds _,
      scoreUV_bounds _, scoreWindCycling_bounds _, scorePrecipCycling_bounds _,
      scoreWeatherCodeCycling_bounds _]

/-- The per-mode weight tables sum to 1 with nonnegative entries, so the
weighted composite inherits the sub-score bounds. -/
lemma weightedSum_bounds (h : HourlyData) (m : Mode) :
    0 ≤ weightedSum h m ∧ weightedSum h m ≤ 100 := by
  cases m with
  | stargazing =>
    obtain ⟨a1, b1⟩ := scoreCloudCover_bounds (h.cloud_cover.getD 50)
    obtain ⟨a2, b2⟩ := scoreWeatherCodeStargazing_bounds h.weather_code
    obtain ⟨a3, b3⟩ := scoreTempStargazing_bounds h.temperature
    obtain ⟨a4, b4⟩ := scoreWindStargazing_bounds h.wind_speed
    obtain ⟨a5, b5⟩ := scoreHumidityStargazing_bounds h.humidity
    obtain ⟨a6, b6⟩ := scorePrecip_bounds h.precipitation_probability
    obtain ⟨a7, b7⟩ := scoreVisib_bounds (h.visibility.getD 20000)
    simp only [weightedSum]
    constructor <;> linarith
  | dog_walking =>
    obtain ⟨a1, b1⟩ := scoreTempDogWalking_bounds h.temperature
    obtain ⟨a2, b2⟩ := scoreTempDogWalking_bounds h.feels_like
    obtain ⟨a3, b3⟩ :=
      scorePavement_bounds (estimatePavementTemp h.temperature h.uv_index h.cloud_cover)
    obtain ⟨a4, b4⟩ := scoreHumidity_bounds h.humidity
    obtain ⟨a5, b5⟩ := scoreUVDogWalking_bounds h.uv_index
    obtain ⟨a6, b6⟩ := scoreWindWalking_bounds h.wind_speed
    obtain ⟨a7, b7⟩ := scorePrecip_bounds h.precipitation_probability
    obtain ⟨a8, b8⟩ := scoreWeatherCodeDogWalking_bounds h.weather_code
    simp only [weightedSum]
    constructor <;> linarith
  | running =>
    obtain ⟨a1, b1⟩ := scoreTempRunning_bounds h.temperature
    obtain ⟨a2, b2⟩ := scoreTempRunning_bounds h.feels_like
    obtain ⟨a3, b3⟩ := scoreHumidity_bounds h.humidity
    obtain ⟨a4, b4⟩ := scoreUV_bounds h.uv_index
    obtain ⟨a5, b5⟩ := scoreWindRunning_bounds h.wind_speed
    obtain ⟨a6, b6⟩ := scorePrecip_bounds h.precipitation_probability
    obtain ⟨a7, b7⟩ := scoreWeatherCode_bounds h.weather_code
    simp only [weightedSum]
    constructor <;> linarith
  | walking =>
    obtain ⟨a1, b1⟩ := scoreTempWalking_bounds h.temperature
    obtain ⟨a2, b2⟩ := scoreTempWalking_bounds h.feels_like
    obtain ⟨a3, b3⟩ := scoreHumidity_bounds h.humidity
    obtain ⟨a4, b4⟩ := scoreUV_bounds h.uv_index
    obtain ⟨a5, b5⟩ := scoreWindWalking_bounds h.wind_speed
    obtain ⟨a6, b6⟩ := scorePrecip_bounds h.precipitation_probability
    obtain ⟨a7, b7⟩ := scoreWeatherCode_bounds h.weather_code
    simp only [weightedSum]
    constructor <;> linarith
  | cycling =>
    obtain ⟨a1, b1⟩ := scoreTempCycling_bounds h.temperature
    obtain ⟨a2, b2⟩ := scoreTempCycling_bounds h.feels_like
    obtain ⟨a3, b3⟩ := scoreHumidity_bounds h.humidity
    obtain ⟨a4, b4⟩ := scoreUV_bounds h.uv_index
    obtain ⟨a5, b5⟩ := scoreWindCycling_bounds h.wind_speed
    obtain ⟨a6, b6⟩ := scorePrecipCycling_bounds h.precipitation_probability
    obtain ⟨a7, b7⟩ := scoreWeatherCodeCycling_bounds h.weather_code
    simp only [weightedSum]
    constructor <;> linarith

lemma roundTenth_bounds {q : ℚ} (h0 : 0 ≤ q) (h1 : q ≤ 100) :
    0 ≤ roundTenth q ∧ roundTenth q ≤ 100 := by
  have hfl : (0 : Int) ≤ ⌊q * 10 + 1/2⌋ := Int.floor_nonneg.mpr (by linarith)
  have hfu : ⌊q * 10 + 1/2⌋ ≤ 1000 := by
    have h2 : q * 10 + 1/2 ≤ (2001 : ℚ) / 2 := by linarith
    have h3 : ⌊(2001 : ℚ) / 2⌋ = 1000 := by
      rw [Int.floor_eq_iff] ; norm_num
    calc ⌊q * 10 + 1/2⌋ ≤ ⌊(2001 : ℚ) / 2⌋ := Int.floor_le_floor h2
      _ = 1000 := h3
  unfold roundTenth jsRound
  constructor
  · have : (0 : ℚ) ≤ (⌊q * 10 + 1/2⌋ : ℚ) := by exact_mod_cast hfl
    linarith
  · have : ((⌊q * 10 + 1/2⌋ : Int) : ℚ) ≤ 1000 := by exact_mod_cast hfu
    linarith

/-- Along a chain of strictly increasing breakpoint inputs, the head is
strictly below the last element. -/
lemma chain_head_lt_getLastD (q : ℚ × ℚ) (rest : List (ℚ × ℚ)) (p : ℚ × ℚ)
    (hc : List.Chain' (fun a b => a.1 < b.1) (p :: q :: rest)) :
    p.1 < ((q :: rest).getLastD (0, 0)).1 := by
  induction rest generalizing p q with
  | nil => simpa using (List.chain'_cons.mp hc).1
  | cons r rs ih =>
    have h1 : p.1 < q.1 := (List.chain'_cons.mp hc).1
    have h2 := ih r q (List.chain'_cons.mp hc).2
    calc p.1 < q.1 := h1
      _ < ((r :: rs).getLastD (0, 0)).1 := h2


/-- `none` accumulates through the search loop exactly when no index is
eligible. -/
lemma bestFold_none_iff (e : Nat → Option (TS × ℚ)) :
    ∀ (l : List Nat) (acc : Option (TS × ℚ)),
      l.foldl (bestStep e) acc = none ↔ acc = none ∧ ∀ i ∈ l, e i = none := by
  intro l
  induction l with
  | nil => intro acc; simp
  | cons i t ih =>
    intro acc
    simp only [List.foldl_cons]
    rw [ih]
    cases he : e i with
    | none =>
      simp only [bestStep, he]
      constructor
      · rintro ⟨h1, h2⟩
        exact ⟨h1, by
          intro j hj
          rcases List.mem_cons.mp hj with hj | hj
          · subst hj; exact he
          · exact h2 j hj⟩
      · rintro ⟨h1, h2⟩
        exact ⟨h1, fun j hj => h2 j (List.mem_cons_of_mem i hj)⟩
    | some s =>
      have hne : bestStep e acc i ≠ none := by
        simp only [bestStep, he]
        cases acc with
        | none => simp
        | some b =>
          show ¬(if s.2 > b.2 then some s else some b) = none
          split <;> simp
      constructor
      · rintro ⟨h1, _⟩; exact absurd h1 hne
      · rintro ⟨_, h2⟩
        exact absurd (h2 i (List.mem_cons_self i t)) (by simp [he])

/-- Structure of a `some` result of the search loop: either the
accumulator survives and dominates every candidate, or the result is the
candidate of some split position whose predecessors (and the incoming
accumulator) score strictly below it and whose successors score at most
it — i.e. the first position attaining the maximum. -/
lemma bestFold_some (e : Nat → Option (TS × ℚ)) :
    ∀ (l : List Nat) (acc : Option (TS × ℚ)) (b : TS × ℚ),
      l.foldl (bestStep e) acc = some b →
      (acc = some b ∧ ∀ j ∈ l, ∀ s, e j = some s → s.2 ≤ b.2) ∨
      (∃ l1 i l2, l = l1 ++ i :: l2 ∧ e i = some b ∧
        (∀ a, acc = some a → a.2 < b.2) ∧
        (∀ j ∈ l1, ∀ s, e j = some s → s.2 < b.2) ∧
        (∀ j ∈ l2, ∀ s, e j = some s → s.2 ≤ b.2)) := by
  intro l
  induction l with
  | nil =>
    intro acc b h
    simp only [List.foldl_nil] at h
    exact Or.inl ⟨h, by simp⟩
  | cons i t ih =>
    intro acc b h
    simp only [List.foldl_cons] at h
    cases he : e i with
    | none =>
      have hstep : bestStep e acc i = acc := by simp [bestStep, he]
      rw [hstep] at h
      rcases ih acc b h with ⟨h1, h2⟩ | ⟨l1, k, l2, hsplit, hk, hacc, hl1, hl2⟩
      · refine Or.inl ⟨h1, ?_⟩
        intro j hj s hs
        rcases List.mem_cons.mp hj with hj | hj
        · subst hj; rw [he] at hs; cases hs
        · exact h2 j hj s hs
      · refine Or.inr ⟨i :: l1, k, l2, by rw [hsplit] ; rfl, hk, hacc, ?_, hl2⟩
        intro j hj s hs
        rcases List.mem_cons.mp hj with hj | hj
        · subst hj; rw [he] at hs; cases hs
        · exact hl1 j hj s hs
    | some s =>
      cases acc with
      | none =>
        have hstep : bestStep e none i = some s := by simp [bestStep, he]
        rw [hstep] at h
        rcases ih (some s) b h with ⟨h1, h2⟩ | ⟨l1, k, l2, hsplit, hk, hacc, hl1, hl2⟩
        · have hsb : s = b := by injection h1
          subst hsb
          refine Or.inr ⟨[], i, t, rfl, he, by simp, by simp, h2⟩
        · have hslt : s.2 < b.2 := hacc s rfl
          refine Or.inr ⟨i :: l1, k, l2, by rw [hsplit] ; rfl, hk, by simp, ?_, hl2⟩
          intro j hj s' hs'
          rcases List.mem_cons.mp hj with hj | hj
          · subst hj; rw [he] at hs'; injection hs' with hv; rw [← hv]; exact hslt
          · exact hl1 j hj s' hs'
      | some a0 =>
        by_cases hgt : s.2 > a0.2
        · have hstep : bestStep e (some a0) i = some s := by
            simp [bestStep, he, hgt]
          rw [hstep] at h
          rcases ih (some s) b h with ⟨h1, h2⟩ | ⟨l1, k, l2, hsplit, hk, hacc, hl1, hl2⟩
          · have hsb : s = b := by injection h1
            subst hsb
            refine Or.inr ⟨[], i, t, rfl, he, ?_, by simp, h2⟩
            intro a ha; injection ha with ha; rw [← ha]; exact hgt
          · have hslt : s.2 < b.2 := hacc s rfl
            refine Or.inr ⟨i :: l1, k, l2, by rw [hsplit] ; rfl, hk, ?_, ?_, hl2⟩
            · intro a ha; injection ha with ha; rw [← ha]; linarith
            · intro j hj s' hs'
              rcases List.mem_cons.mp hj with hj | hj
              · subst hj; rw [he] at hs'; injection hs' with hv; rw [← hv]; exact hslt
              · exact hl1 j hj s' hs'
        · have hstep : bestStep e (some a0) i = some a0 := by
            simp [bestStep, he, hgt]
          rw [hstep] at h
          push_neg at hgt
          rcases ih (some a0) b h with ⟨h1, h2⟩ | ⟨l1, k, l2, hsplit, hk, hacc, hl1, hl2⟩
          · have hab : a0 = b := by injection h1
            subst hab
            refine Or.inl ⟨rfl, ?_⟩
            intro j hj s' hs'
            rcases List.mem_cons.mp hj with hj | hj
            · subst hj; rw [he] at hs'; injection hs' with hv; rw [← hv]; exact hgt
            · exact h2 j hj s' hs'
          · have halt : a0.2 < b.2 := hacc a0 rfl
            refine Or.inr ⟨i :: l1, k, l2, by rw [hsplit] ; rfl, hk, ?_, ?_, hl2⟩
            · intro a ha; injection ha with ha; rw [← ha]; exact halt
            · intro j hj s' hs'
              rcases List.mem_cons.mp hj with hj | hj
              · subst hj; rw [he] at hs'; injection hs' with hv; rw [← hv]; linarith
              · exact hl1 j hj s' hs'

/-- An eligible slot is never the target slot: the `tMs === targetMs`
guard filters it out. -/
lemma eligibleScore_ms_ne (f : OpenMeteoForecast) (target : TS) (now : Int)
    (mode : Mode) (i : Nat) (b : TS × ℚ)
    (h : eligibleScore f target now mode i = some b) : b.1.ms ≠ target.ms := by
  unfold eligibleScore at h
  cases hg : f.hourly.time.get? i with
  | none => rw [hg] at h; cases h
  | some t =>
    rw [hg] at h
    simp only at h
    split_ifs at h <;> cases h <;> (show t.ms ≠ target.ms; assumption)

/-- Unfolding `computeDaylight` when the day lookup succeeds. -/
lemma computeDaylight_some (hour : TS) (dailyList : List DayRec) (day : DayRec)
    (hfind : dailyList.find? (fun d => d.date = hour.dateKey) = some day) :
    computeDaylight hour dailyList =
      (if hour.ms ≥ day.sunriseMs ∧ hour.ms ≤ day.sunsetMs then
        if hour.ms - day.sunriseMs < twilightMs ∨ day.sunsetMs - hour.ms < twilightMs then
          { is_daylight := true, daylight_factor := 6/10 }
        else { is_daylight := true, daylight_factor := 1 }
      else if hour.ms < day.sunriseMs ∧ day.sunriseMs - hour.ms ≤ twilightMs then
        { is_daylight := false, daylight_factor := 6/10 }
      else if hour.ms > day.sunsetMs ∧ hour.ms - day.sunsetMs ≤ twilightMs then
        { is_daylight := false, daylight_factor := 6/10 }
      else { is_daylight := false, daylight_factor := 3/10 }) := by
  unfold computeDaylight
  rw [hfind]

/-- Unfolding `computeDarkness` when the day lookup succeeds. -/
lemma computeDarkness_some (hour : TS) (dailyList : List DayRec) (day : DayRec)
    (hfind : dailyList.find? (fun d => d.date = hour.dateKey) = some day) :
    computeDarkness hour dailyList =
      (if hour.ms > day.sunsetMs + twilightMs ∨ hour.ms < day.sunriseMs - twilightMs then
        { is_daylight := false, daylight_factor := 1 }
      else if (hour.ms ≥ day.sunsetMs ∧ hour.ms ≤ day.sunsetMs + twilightMs) ∨
          (hour.ms ≥ day.sunriseMs - twilightMs ∧ hour.ms ≤ day.sunriseMs) then
        { is_daylight := false, daylight_factor := 3/10 }
      else if (hour.ms ≥ day.sunriseMs ∧ hour.ms ≤ day.sunriseMs + twilightMs) ∨
          (hour.ms ≥ day.sunsetMs - twilightMs ∧ hour.ms ≤ day.sunsetMs) then
        { is_daylight := true, daylight_factor := 3/10 }
      else { is_daylight := true, daylight_factor := 5/100 }) := by
  unfold computeDarkness
  rw [hfind]

lemma alarm_none_eq (w : Wake) :
    alarm none w = { state := none, sent := [], nextAlarm := none } := rfl

/-- A single alarm run dispatches at most one notification. -/
lemma alarm_sent_le_one (st : Option EventRow) (w : Wake) :
    (alarm st w).sent.length ≤ 1 := by
  unfold alarm
  repeat' split
  all_goals simp

/-- Once the alert flag is set, an alarm run dispatches nothing and
either keeps the row unchanged or deletes it. -/
lemma alarm_flagged (ev : EventRow) (w : Wake) (h : ev.alert_sent ≠ 0) :
    (alarm (some ev) w).sent = [] ∧
      ((alarm (some ev) w).state = none ∨ (alarm (some ev) w).state = some ev) := by
  unfold alarm
  repeat' split
  all_goals simp_all

/-- If an alarm run dispatched a notification, the persisted row
afterwards has the alert flag set. -/
lemma alarm_sent_state (st : Option EventRow) (w : Wake) :
    (alarm st w).sent ≠ [] →
    ∃ ev', (alarm st w).state = some ev' ∧ ev'.alert_sent = 1 := by
  unfold alarm
  repeat' split
  all_goals intro h
  all_goals first
    | exact absurd rfl h
    | exact ⟨_, rfl, rfl⟩

lemma runWakes_none (ws : List Wake) : (runWakes none ws).2 = 0 := by
  induction ws with
  | nil => rfl
  | cons w t ih => simpa [runWakes, alarm_none_eq] using ih

/-- With the alert flag already set, no wake sequence ever dispatches a
notification. -/
lemma runWakes_flagged : ∀ (ws : List Wake) (ev : EventRow), ev.alert_sent ≠ 0 →
    (runWakes (some ev) ws).2 = 0 := by
  intro ws
  induction ws with
  | nil => intro ev _; rfl
  | cons w t ih =>
    intro ev h
    obtain ⟨hsent, hstate⟩ := alarm_flagged ev w h
    simp only [runWakes, hsent, List.length_nil, Nat.zero_add]
    rcases hstate with hstate | hstate <;> rw [hstate]
    · exact runWakes_none t
    · exact ih ev h

/-- Any wake sequence from any state dispatches at most one
notification in total. -/
lemma runWakes_le_one : ∀ (ws : List Wake) (st : Option EventRow),
    (runWakes st ws).2 ≤ 1 := by
  intro ws
  induction ws with
  | nil => intro st; simp [runWakes]
  | cons w t ih =>
    intro st
    simp only [runWakes]
    cases hs : (alarm st w).sent with
    | nil => simpa using ih (alarm st w).state
    | cons x xs =>
      have h1 : (alarm st w).sent.length ≤ 1 := alarm_sent_le_one st w
      rw [hs] at h1
      have hxs : xs = [] := by
        cases xs with
        | nil => rfl
        | cons y ys => simp at h1
      subst hxs
      obtain ⟨ev', hstate, hflag⟩ := alarm_sent_state st w (by rw [hs]; simp)
      have h0 : (runWakes (alarm st w).state t).2 = 0 := by
        rw [hstate]
        exact runWakes_flagged t ev' (by rw [hflag]; exact one_ne_zero)
      rw [h0]
      simp

/-! ### Claims -/

/-- C1: For every monitored event, after the alert flag has been set, a
deterioration notification is never dispatched again on any later timer
wake, even if the score drop is at or above the 15-point threshold on
multiple consecutive wakes: over any sequence of wakes, a state whose
alert flag is set dispatches zero notifications, and any state
dispatches at most one in total. -/
theorem claim_C1 (st : Option EventRow) (ws : List Wake) :
    (∀ ev, st = some ev → ev.alert_sent ≠ 0 → (runWakes st ws).2 = 0) ∧
    (runWakes st ws).2 ≤ 1 := by
  constructor
  · intro ev hev hflag
    subst hev
    exact runWakes_flagged ws ev hflag
  · exact runWakes_le_one ws st

/-- Witness for C1 at a concrete flagged event and wake list. -/
theorem claim_C1_witness :
    (runWakes (some exEventFlagged) [exWakeFetch, exWakeFail]).2 = 0 ∧
    (runWakes (some exEventFlagged) [exWakeFetch, exWakeFail]).2 ≤ 1 :=
  ⟨(claim_C1 (some exEventFlagged) [exWakeFetch, exWakeFail]).1 exEventFlagged rfl (by decide),
   (claim_C1 (some exEventFlagged) [exWakeFetch, exWakeFail]).2⟩

/-- C2 counterexample: at the exact sunrise instant `computeDarkness`
reports `is_daylight = false` (the pre-sunrise twilight branch wins the
tie), not `is_daylight = true` as the claim states. -/
theorem claim_C2_counterexample :
    computeDaylight exSunriseTS exDailyList = { is_daylight := true, daylight_factor := 6/10 } ∧
    computeDarkness exSunriseTS exDailyList = { is_daylight := false, daylight_factor := 3/10 } ∧
    computeDarkness exSunriseTS exDailyList ≠ { is_daylight := true, daylight_factor := 3/10 } := by
  have h1 : computeDarkness exSunriseTS exDailyList
      = { is_daylight := false, daylight_factor := 3/10 } := rfl
  refine ⟨rfl, h1, ?_⟩
  rw [h1]
  intro heq
  exact absurd (congrArg DLight.is_daylight heq) (by simp)

/-- C2 (amended): at a timestamp exactly equal to the day's sunrise
instant (with a matching day record and sunrise before sunset),
`computeDaylight` returns `is_daylight = true` with multiplier 0.6, and
`computeDarkness` returns `is_daylight = false` with multiplier 0.3. -/
theorem claim_C2 (hour : TS) (dailyList : List DayRec) (day : DayRec)
    (hfind : dailyList.find? (fun d => d.date = hour.dateKey) = some day)
    (hms : hour.ms = day.sunriseMs) (hlt : day.sunriseMs < day.sunsetMs) :
    computeDaylight hour dailyList = { is_daylight := true, daylight_factor := 6/10 } ∧
    computeDarkness hour dailyList = { is_daylight := false, daylight_factor := 3/10 } := by
  constructor
  · rw [computeDaylight_some hour dailyList day hfind]
    have h1 : hour.ms ≥ day.sunriseMs ∧ hour.ms ≤ day.sunsetMs := by omega
    have h2 : hour.ms - day.sunriseMs < twilightMs ∨ day.sunsetMs - hour.ms < twilightMs := by
      left; simp only [twilightMs]; omega
    rw [if_pos h1, if_pos h2]
  · rw [computeDarkness_some hour dailyList day hfind]
    have h1 : ¬(hour.ms > day.sunsetMs + twilightMs ∨ hour.ms < day.sunriseMs - twilightMs) := by
      simp only [twilightMs]; omega
    have h2 : (hour.ms ≥ day.sunsetMs ∧ hour.ms ≤ day.sunsetMs + twilightMs) ∨
        (hour.ms ≥ day.sunriseMs - twilightMs ∧ hour.ms ≤ day.sunriseMs) := by
      right; simp only [twilightMs]; omega
    rw [if_neg h1, if_pos h2]

/-- Witness for C2 (amended) at the concrete sunrise instant. -/
theorem claim_C2_witness :
    computeDaylight exSunriseTS exDailyList = { is_daylight := true, daylight_factor := 6/10 } ∧
    computeDarkness exSunriseTS exDailyList = { is_daylight := false, daylight_factor := 3/10 } :=
  claim_C2 exSunriseTS exDailyList exDay (by decide) (by decide) (by decide)

/-- C3 counterexample: at exactly 1800 seconds after sunrise (inside the
span, with sunset far away) `computeDaylight` returns the full-daylight
multiplier 1.0, not the twilight multiplier 0.6: the interior twilight
band is strict (`< 1800000 ms`), so the boundary tie goes to full
daylight. -/
theorem claim_C3_counterexample :
    computeDaylight exSunrisePlusTS exDailyList = { is_daylight := true, daylight_factor := 1 } ∧
    computeDaylight exSunrisePlusTS exDailyList ≠ { is_daylight := true, daylight_factor := 6/10 } := by
  have h1 : computeDaylight exSunrisePlusTS exDailyList
      = { is_daylight := true, daylight_factor := 1 } := rfl
  refine ⟨h1, ?_⟩
  rw [h1]
  intro heq
  exact absurd (congrArg DLight.daylight_factor heq) (by norm_num)

/-- C3 (amended): the twilight band inside the sunrise–sunset span is
the half-open interval of width 1800 seconds: at an hour exactly 1800
seconds after sunrise (inside the span, with sunset at least 1800
seconds further away), `computeDaylight` returns the full-daylight
multiplier 1.0, not 0.6. -/
theorem claim_C3 (hour : TS) (dailyList : List DayRec) (day : DayRec)
    (hfind : dailyList.find? (fun d => d.date = hour.dateKey) = some day)
    (hms : hour.ms = day.sunriseMs + twilightMs)
    (hfar : hour.ms + twilightMs ≤ day.sunsetMs) :
    computeDaylight hour dailyList = { is_daylight := true, daylight_factor := 1 } := by
  rw [computeDaylight_some hour dailyList day hfind]
  have h1 : hour.ms ≥ day.sunriseMs ∧ hour.ms ≤ day.sunsetMs := by
    simp only [twilightMs] at hms hfar; omega
  have h2 : ¬(hour.ms - day.sunriseMs < twilightMs ∨ day.sunsetMs - hour.ms < twilightMs) := by
    simp only [twilightMs] at hms hfar ⊢; omega
  rw [if_pos h1, if_neg h2]

/-- Witness for C3 (amended) at the concrete 06:30 hour. -/
theorem claim_C3_witness :
    computeDaylight exSunrisePlusTS exDailyList = { is_daylight := true, daylight_factor := 1 } :=
  claim_C3 exSunrisePlusTS exDailyList exDay (by decide) (by decide) (by decide)

/-- C4: for every `HourlyData` whose daylight factor lies in `[0, 1]`
and every mode, every sub-score lies in `[0, 100]`, the composite score
lies in `[0, 100]`, and the composite equals the weighted sum times the
daylight factor rounded to one decimal place. -/
theorem claim_C4 (h : HourlyData) (m : Mode)
    (h0 : 0 ≤ h.daylight_factor) (h1 : h.daylight_factor ≤ 1) :
    (∀ s ∈ subScores h m, 0 ≤ s ∧ s ≤ 100) ∧
    0 ≤ (computeScore h m).score ∧ (computeScore h m).score ≤ 100 ∧
    (computeScore h m).score = roundTenth (weightedSum h m * h.daylight_factor) := by
  obtain ⟨hw0, hw1⟩ := weightedSum_bounds h m
  have hp0 : 0 ≤ weightedSum h m * h.daylight_factor := mul_nonneg hw0 h0
  have hp1 : weightedSum h m * h.daylight_factor ≤ 100 := by
    calc weightedSum h m * h.daylight_factor ≤ 100 * 1 := by
          exact mul_le_mul hw1 h1 h0 (by norm_num)
      _ = 100 := by norm_num
  obtain ⟨hr0, hr1⟩ := roundTenth_bounds hp0 hp1
  exact ⟨subScores_bounds h m, hr0, hr1, rfl⟩

/-- Witness for C4 at the perfect running hour. -/
theorem claim_C4_witness :
    0 ≤ (computeScore exHour Mode.running).score ∧
    (computeScore exHour Mode.running).score ≤ 100 :=
  ⟨(claim_C4 exHour Mode.running (by decide) (by decide)).2.1,
   (claim_C4 exHour Mode.running (by decide) (by decide)).2.2.1⟩

/-- A small strictly ascending breakpoint table for the C5 witness. -/
def exTable : List (ℚ × ℚ) := [(10, 0), (20, 15), (30, 45)]

/-- C5: for every nonempty breakpoint table with strictly ascending
inputs, `interpolate` clamps: a query at most the first input returns
the first output, a query at least the last input returns the last
output. -/
theorem claim_C5 (bp : List (ℚ × ℚ)) (hne : bp ≠ [])
    (hsorted : bp.Chain' (fun p q => p.1 < q.1)) (v : ℚ) :
    (v ≤ (bp.headD (0, 0)).1 → interpolate v bp = (bp.headD (0, 0)).2) ∧
    ((bp.getLastD (0, 0)).1 ≤ v → interpolate v bp = (bp.getLastD (0, 0)).2) := by
  constructor
  · intro hv
    unfold interpolate
    rw [if_pos hv]
  · intro hv
    rcases bp with _ | ⟨p, _ | ⟨q, rest⟩⟩
    · exact absurd rfl hne
    · by_cases hv2 : v ≤ ([p].headD (0, 0)).1
      · unfold interpolate
        rw [if_pos hv2]
        rfl
      · unfold interpolate
        rw [if_neg hv2, if_pos hv]
    · have hlt : p.1 < ((q :: rest).getLastD (0, 0)).1 :=
        chain_head_lt_getLastD q rest p hsorted
      have hlt' : ((p :: q :: rest).headD (0, 0)).1 <
          ((p :: q :: rest).getLastD (0, 0)).1 := hlt
      have hv2 : ¬ v ≤ ((p :: q :: rest).headD (0, 0)).1 := by
        push_neg
        calc ((p :: q :: rest).headD (0, 0)).1
            < ((p :: q :: rest).getLastD (0, 0)).1 := hlt'
          _ ≤ v := hv
      unfold interpolate
      rw [if_neg hv2, if_pos hv]

/-- Witness for C5 on a concrete three-point table. -/
theorem claim_C5_witness :
    interpolate (5 : ℚ) exTable = 0 ∧ interpolate (50 : ℚ) exTable = 45 := by
  have hne : exTable ≠ [] := by simp [exTable]
  have hs : exTable.Chain' (fun p q => p.1 < q.1) := by
    simp only [exTable, List.chain'_cons, List.chain'_singleton, and_true]
    norm_num
  exact ⟨(claim_C5 exTable hne hs 5).1 (by decide),
         (claim_C5 exTable hne hs 50).2 (by decide)⟩

/-- C6: `computeScoreForHour` on a forecast whose hourly series is empty
returns exactly 50 for every target and mode. -/
theorem claim_C6 (f : OpenMeteoForecast) (hempty : f.hourly.time = [])
    (target : TS) (mode : Mode) :
    computeScoreForHour f target mode = 50 := by
  unfold computeScoreForHour
  rw [hempty]
  rfl

/-- Witness for C6 on the concrete empty forecast. -/
theorem claim_C6_witness :
    computeScoreForHour emptyForecast exNoonTS Mode.stargazing = 50 :=
  claim_C6 emptyForecast rfl exNoonTS Mode.stargazing

/-- C7: `findBestAlternative` returns `none` exactly when no index is
eligible; a returned slot is the eligible slot of some index `i`, every
earlier eligible slot scores strictly below it (first-in-series tie
break) and every eligible slot scores at most it (maximality). -/
theorem claim_C7 (f : OpenMeteoForecast) (target : TS) (now : Int) (mode : Mode) :
    (findBestAlternative f target now mode = none ↔
      ∀ i < f.hourly.time.length, eligibleScore f target now mode i = none) ∧
    (∀ b, findBestAlternative f target now mode = some b →
      ∃ i < f.hourly.time.length,
        eligibleScore f target now mode i = some b ∧
        (∀ j < i, ∀ s, eligibleScore f target now mode j = some s → s.2 < b.2) ∧
        (∀ j < f.hourly.time.length, ∀ s,
          eligibleScore f target now mode j = some s → s.2 ≤ b.2)) := by
  constructor
  · unfold findBestAlternative
    rw [bestFold_none_iff]
    simp [List.mem_range]
  · intro b hb
    unfold findBestAlternative at hb
    rcases bestFold_some (eligibleScore f target now mode)
        (List.range f.hourly.time.length) none b hb with
      ⟨h1, _⟩ | ⟨l1, i, l2, hsplit, hi, _, hl1, hl2⟩
    · cases h1
    · have hiRange : i ∈ List.range f.hourly.time.length := by
        rw [hsplit]
        exact List.mem_append.mpr (Or.inr (List.mem_cons_self i l2))
      have hin : i < f.hourly.time.length := List.mem_range.mp hiRange
      have hp := List.pairwise_lt_range f.hourly.time.length
      rw [hsplit] at hp
      obtain ⟨_, hp2, hp12⟩ := List.pairwise_append.mp hp
      have hl2gt : ∀ j ∈ l2, i < j := (List.pairwise_cons.mp hp2).1
      refine ⟨i, hin, hi, ?_, ?_⟩
      · intro j hj s hs
        have hjmem : j ∈ List.range f.hourly.time.length :=
          List.mem_range.mpr (lt_trans hj hin)
        rw [hsplit] at hjmem
        rcases List.mem_append.mp hjmem with hj1 | hj2
        · exact hl1 j hj1 s hs
        · rcases List.mem_cons.mp hj2 with hji | hj3
          · exact absurd hj (by omega)
          · have := hl2gt j hj3
            exact absurd hj (by omega)
      · intro j hjn s hs
        have hjmem : j ∈ List.range f.hourly.time.length := List.mem_range.mpr hjn
        rw [hsplit] at hjmem
        rcases List.mem_append.mp hjmem with hj1 | hj2
        · exact le_of_lt (hl1 j hj1 s hs)
        · rcases List.mem_cons.mp hj2 with rfl | hj3
          · rw [hi] at hs
            injection hs with hv
            exact le_of_eq (congrArg Prod.snd hv.symm)
          · exact hl2 j hj3 s hs

/-- The 13:00 slot of `exForecast` as an `HourlyData` record (bad
weather: 80% precipitation, weather code 65). -/
def exHourBad : HourlyData :=
  { exHour with weather_code := 65, precipitation_probability := 80 }

/-- Witness for C7: on the concrete two-slot forecast the search returns
the 13:00 slot, and the characterization instantiates. -/
theorem claim_C7_witness :
    ∃ i < exForecast.hourly.time.length,
      eligibleScore exForecast exNoonTS exNow Mode.running i
          = some (exOneTS, (computeScore exHourBad Mode.running).score) ∧
      (∀ j < i, ∀ s, eligibleScore exForecast exNoonTS exNow Mode.running j = some s →
        s.2 < (computeScore exHourBad Mode.running).score) ∧
      (∀ j < exForecast.hourly.time.length, ∀ s,
        eligibleScore exForecast exNoonTS exNow Mode.running j = some s →
        s.2 ≤ (computeScore exHourBad Mode.running).score) :=
  (claim_C7 exForecast exNoonTS exNow Mode.running).2
    (exOneTS, (computeScore exHourBad Mode.running).score) rfl

/-- C8 counterexample: the claim asserts every returned alternative
scores higher than the originally scheduled hour, but
`findBestAlternative` never compares against the original slot's score:
on `exForecast` the returned 13:00 alternative scores 80.2 while the
scheduled noon slot scores 99.2. -/
theorem claim_C8_counterexample :
    findBestAlternative exForecast exNoonTS exNow Mode.running
        = some (exOneTS, (computeScore exHourBad Mode.running).score) ∧
    computeScoreForHour exForecast exNoonTS Mode.running
        = (computeScore exHour Mode.running).score ∧
    (computeScore exHourBad Mode.running).score = 401/5 ∧
    (computeScore exHour Mode.running).score = 496/5 ∧
    ¬((401 : ℚ)/5 > 496/5) := by
  refine ⟨rfl, rfl, ?_, ?_, by norm_num⟩
  · show roundTenth (weightedSum exHourBad Mode.running * exHourBad.daylight_factor) = 401/5
    have hw : weightedSum exHourBad Mode.running = 2405/30 := by
      simp only [weightedSum, exHourBad, exHour, scoreTempRunning, scoreHumidity, scoreUV,
        scoreWindRunning, scorePrecip, scoreWeatherCode, codeLookup, WEATHER_CODE_SCORES,
        clamp, interpolate, interpSegments]
      norm_num
    rw [hw]
    show ((⌊(2405 : ℚ)/30 * exHourBad.daylight_factor * 10 + 1/2⌋ : ℤ) : ℚ) / 10 = 401/5
    have hf : ⌊(2405 : ℚ)/30 * exHourBad.daylight_factor * 10 + 1/2⌋ = 802 := by
      have : (2405 : ℚ)/30 * exHourBad.daylight_factor * 10 + 1/2 = 4813/6 := by
        show (2405 : ℚ)/30 * 1 * 10 + 1/2 = 4813/6
        norm_num
      rw [this, Int.floor_eq_iff] ; norm_num
    rw [hf]
    norm_num
  · show roundTenth (weightedSum exHour Mode.running * exHour.daylight_factor) = 496/5
    have hw : weightedSum exHour Mode.running = 2975/30 := by
      simp only [weightedSum, exHour, scoreTempRunning, scoreHumidity, scoreUV,
        scoreWindRunning, scorePrecip, scoreWeatherCode, codeLookup, WEATHER_CODE_SCORES,
        clamp, interpolate, interpSegments]
      norm_num
    rw [hw]
    show ((⌊(2975 : ℚ)/30 * exHour.daylight_factor * 10 + 1/2⌋ : ℤ) : ℚ) / 10 = 496/5
    have hf : ⌊(2975 : ℚ)/30 * exHour.daylight_factor * 10 + 1/2⌋ = 992 := by
      have : (2975 : ℚ)/30 * exHour.daylight_factor * 10 + 1/2 = 5953/6 := by
        show (2975 : ℚ)/30 * 1 * 10 + 1/2 = 5953/6
        norm_num
      rw [this, Int.floor_eq_iff] ; norm_num
    rw [hf]
    norm_num

/-- C8 (amended): every alternative slot returned by
`findBestAlternative` is at a different time (different epoch
millisecond) than the originally scheduled slot; it is the
highest-scoring eligible slot but need not score higher than the
originally scheduled hour. -/
theorem claim_C8 (f : OpenMeteoForecast) (target : TS) (now : Int) (mode : Mode)
    (b : TS × ℚ) (h : findBestAlternative f target now mode = some b) :
    b.1.ms ≠ target.ms := by
  unfold findBestAlternative at h
  rcases bestFold_some (eligibleScore f target now mode)
      (List.range f.hourly.time.length) none b h with
    ⟨h1, _⟩ | ⟨l1, i, l2, _, hi, _, _, _⟩
  · cases h1
  · exact eligibleScore_ms_ne f target now mode i b hi

/-- Witness for C8 (amended) on the concrete forecast. -/
theorem claim_C8_witness :
    (exOneTS, (computeScore exHourBad Mode.running).score).1.ms ≠ exNoonTS.ms :=
  claim_C8 exForecast exNoonTS exNow Mode.running
    (exOneTS, (computeScore exHourBad Mode.running).score) rfl

/-- C9 counterexample: a wake 10 minutes before the scheduled time
(current time does not exceed the scheduled time) arms no next wake at
all, because the rearm guard is `now + 30 min < eventTime`, not
`now ≤ eventTime`. -/
theorem claim_C9_counterexample :
    exWakeFail.now ≤ exEventNear.scheduled_time.ms ∧
    (alarm (some exEventNear) exWakeFail).nextAlarm = none := ⟨by decide, rfl⟩

/-- C9 (amended): on a wake that finds a persisted event whose scheduled
time has not passed, the handler arms the next wake 30 minutes after the
current time exactly when that wake time is still strictly before the
scheduled time, and otherwise arms nothing — in either case regardless
of whether the fetch or notification step succeeded. -/
theorem claim_C9 (ev : EventRow) (w : Wake) (h : ¬ w.now > ev.scheduled_time.ms) :
    (alarm (some ev) w).nextAlarm =
      (if w.now + 30 * 60 * 1000 < ev.scheduled_time.ms
        then some (w.now + 30 * 60 * 1000) else none) := by
  unfold alarm
  repeat' split
  all_goals simp_all [rearm]
  all_goals omega

/-- Witness for C9 (amended): with the far-future event the next wake is
armed 30 minutes later even though the fetch failed. -/
theorem claim_C9_witness :
    (alarm (some exEventFar) exWakeFail).nextAlarm = some 1800000 := by
  rw [claim_C9 exEventFar exWakeFail (by decide)]
  rfl

/-- C10: `handleInitialize` replaces the whole persisted record with the
request body's data irrespective of the prior state — in particular the
alert flag is reset to 0 even if a prior record for the id had it set —
so the false-to-true alert transition is exactly-once per
initialization, not per event id lifetime. -/
theorem claim_C10 (st1 st2 : Option EventRow) (b : InitBody) (now : Int) :
    handleInit st1 b now = handleInit st2 b now ∧
    (handleInit st1 b now).1 = some (rowOfBody b) ∧
    (rowOfBody b).alert_sent = 0 :=
  ⟨rfl, rfl, rfl⟩

end FairWeather
